import Mathlib

/-!
Verification development for the TruthLens claim-verification-and-scoring
pipeline.  The backend engines (`feasibility.py`, `pricing.py`, `scoring.py`)
live outside the frontend sources; the rule tables below follow the rule-engine
pseudocode shipped in the repository walkthrough (src/unnamed/part_003,
"Rule Engine Design") and, where that pseudocode is silent, the specification.
The frontend `ResultCard.jsx` component is embedded directly from its source.
All numeric quantities are modelled as rationals.
-/

namespace TruthLens

/-- Feasibility tier of a verified claim: feasible, exaggerated or impossible. -/
inductive Status where
  | feasible
  | exaggerated
  | impossible
deriving DecidableEq, Repr

/-- Claim category enumeration (the ten categories of the extractor). -/
inductive Category where
  | battery_capacity
  | charging_time
  | power_output
  | efficiency
  | speed
  | range
  | weight
  | capacity_storage
  | marketing_buzzword
  | comparative
deriving DecidableEq, Repr

/-- An extracted product claim: matched text, category, optional numeric value
and optional unit. -/
structure Claim where
  text : String
  category : Category
  value : Option ℚ
  unit : Option String
deriving DecidableEq, Repr

/-- The feasibility judgment on one claim: tier, confidence, reasoning. -/
structure Verification where
  claim : String
  status : Status
  confidence : ℚ
  reasoning : String
  technical_details : Option String := none
deriving DecidableEq, Repr

/-- Battery-capacity rule table (mAh), from the rule-engine pseudocode in
src/unnamed/part_003 lines 453-460: capacity > 100000 is impossible,
capacity > 50000 is exaggerated, capacity >= 1000 is feasible; the below-1000
branch (exaggerated with lower confidence) is from the specification, which is
silent in the pseudocode.  Confidence constants follow the walkthrough where
documented (feasible battery claims carry 0.9). -/
def verifyBatteryCapacity (t : String) (v : ℚ) : Verification :=
  if v > 100000 then
    ⟨t, .impossible, 95/100, "Capacity exceeds maximum reasonable for portable devices", none⟩
  else if v > 50000 then
    ⟨t, .exaggerated, 85/100, "Capacity unusually high for a portable device", none⟩
  else if v ≥ 1000 then
    ⟨t, .feasible, 9/10, "Capacity within normal range for portable batteries", none⟩
  else
    ⟨t, .exaggerated, 6/10, "Capacity implausibly small for advertised use", none⟩

/-- Charging-time rule table (minutes), from src/unnamed/part_003 lines
463-472: time < 5 is impossible, time < 15 is exaggerated, time < 30 is
feasible (fast-charge technology), otherwise feasible (normal). -/
def verifyChargingTime (t : String) (v : ℚ) : Verification :=
  if v < 5 then
    ⟨t, .impossible, 95/100, "Charging this fast is physically impossible for battery chemistry", none⟩
  else if v < 15 then
    ⟨t, .exaggerated, 85/100, "Aggressive charging time, likely unsafe or exaggerated", none⟩
  else if v < 30 then
    ⟨t, .feasible, 95/100, "Consistent with fast-charge technology", none⟩
  else
    ⟨t, .feasible, 9/10, "Normal charging time", none⟩

/-- Power-output rule table (W), from src/unnamed/part_003 lines 475-484:
power > 150 is impossible, power > 100 is exaggerated (exceeds the USB-PD
ceiling), power > 18 is feasible (fast charging), otherwise feasible. -/
def verifyPowerOutput (t : String) (v : ℚ) : Verification :=
  if v > 150 then
    ⟨t, .impossible, 9/10, "Power output exceeds portable-device delivery limits", none⟩
  else if v > 100 then
    ⟨t, .exaggerated, 85/100, "Power output exceeds the standard delivery ceiling", none⟩
  else if v > 18 then
    ⟨t, .feasible, 9/10, "Fast-charging power output", none⟩
  else
    ⟨t, .feasible, 9/10, "Standard power output", none⟩

/-- Efficiency rule table (%), from src/unnamed/part_003 lines 487-496:
efficiency >= 100 is impossible (energy conservation, confidence 1.0 per the
specification), efficiency > 98 is impossible (unachievable in practice),
efficiency > 95 is exaggerated, efficiency >= 70 is feasible; the below-70
branch (exaggerated) is from the specification, which is silent in the
pseudocode. -/
def verifyEfficiency (t : String) (v : ℚ) : Verification :=
  if v ≥ 100 then
    ⟨t, .impossible, 1, "Efficiency at or above 100 percent violates thermodynamics", none⟩
  else if v > 98 then
    ⟨t, .impossible, 95/100, "Efficiency above 98 percent is unachievable in practice", none⟩
  else if v > 95 then
    ⟨t, .exaggerated, 85/100, "Very optimistic efficiency figure", none⟩
  else if v ≥ 70 then
    ⟨t, .feasible, 9/10, "Efficiency within the typical range", none⟩
  else
    ⟨t, .exaggerated, 7/10, "Efficiency implausibly low for a claimed feature", none⟩

/-- Modelled from the spec: the shared shape of the typical-range tables of
specification section 4.1 for speed, range, weight and storage capacity: a
value violating the hard physical or regulatory ceiling is impossible, a
value outside the plausible band is exaggerated, a value inside the band is
feasible with the given confidence. -/
def verifyTypicalRange (t : String) (v lo hi ceil confFeasible : ℚ) : Verification :=
  if v > ceil then
    ⟨t, .impossible, 9/10, "Value violates a hard physical or regulatory ceiling", none⟩
  else if v < lo then
    ⟨t, .exaggerated, 3/4, "Value below the plausible band for this category", none⟩
  else if v > hi then
    ⟨t, .exaggerated, 3/4, "Value above the plausible band for this category", none⟩
  else
    ⟨t, .feasible, confFeasible, "Value within the typical range for this category", none⟩

/-- Modelled from the spec: speed table (km/h); the specification fixes the
three-tier typical-range shape but not the numeric bounds, so representative
bounds are used (plausible band 1 to 500 km/h, hard ceiling 1500 km/h). -/
def verifySpeed (t : String) (v : ℚ) : Verification :=
  verifyTypicalRange t v 1 500 1500 (85/100)

/-- Modelled from the spec: range table (km); representative bounds
(plausible band 1 to 1000 km, hard ceiling 5000 km). -/
def verifyRangeKm (t : String) (v : ℚ) : Verification :=
  verifyTypicalRange t v 1 1000 5000 (85/100)

/-- Modelled from the spec: weight table (grams); the walkthrough in
src/unnamed/part_003 classifies a 150 g weight claim feasible with confidence
0.85, which fixes the feasible confidence and places 150 g inside the band
(plausible band 10 to 10000 g, hard ceiling 100000 g). -/
def verifyWeight (t : String) (v : ℚ) : Verification :=
  verifyTypicalRange t v 10 10000 100000 (85/100)

/-- Modelled from the spec: storage-capacity table (GB); representative
bounds (plausible band 1 to 20000 GB, hard ceiling 1000000 GB). -/
def verifyStorage (t : String) (v : ℚ) : Verification :=
  verifyTypicalRange t v 1 20000 1000000 (85/100)

/-- Modelled from the spec: `feasibility.py` is not among the sources, so the
engine dispatch is modelled from specification sections 4.1 and 7.  The four
numerically tabled categories use the rule tables above; speed, range, weight
and storage capacity use their three-tier typical-range tables; marketing
buzzwords are always exaggerated with a fixed confidence inside the
documented 0.75-0.90 band; comparatives are always exaggerated; every other
case (a claim with no parseable numeric value) falls back to the documented
default: exaggerated with confidence 0.5. -/
def verifyClaim (c : Claim) : Verification :=
  match c.category, c.value with
  | .battery_capacity, some v => verifyBatteryCapacity c.text v
  | .charging_time, some v => verifyChargingTime c.text v
  | .power_output, some v => verifyPowerOutput c.text v
  | .efficiency, some v => verifyEfficiency c.text v
  | .speed, some v => verifySpeed c.text v
  | .range, some v => verifyRangeKm c.text v
  | .weight, some v => verifyWeight c.text v
  | .capacity_storage, some v => verifyStorage c.text v
  | .marketing_buzzword, _ =>
    ⟨c.text, .exaggerated, 4/5, "Marketing term with no scientific or regulatory substantiation", none⟩
  | .comparative, _ =>
    ⟨c.text, .exaggerated, 7/10, "Comparative claim without a verifiable named baseline", none⟩
  | _, _ =>
    ⟨c.text, .exaggerated, 1/2, "Claim could not be fully verified", none⟩

/-- Price verdict enumeration (five levels). -/
inductive PriceVerdict where
  | excellent_value
  | fair
  | slightly_overpriced
  | overpriced
  | highly_overpriced
deriving DecidableEq, Repr

/-- Overall verdict enumeration (five levels). -/
inductive OverallVerdict where
  | good_value
  | acceptable
  | overpriced
  | misleading_claims
  | not_recommended
deriving DecidableEq, Repr

/-- Scraped product record consumed by the core: title, description, optional
price, currency, category tag, and a spec map (spec name to numeric value). -/
structure ProductData where
  title : String
  description : String
  price : Option ℚ
  currency : String
  category : String
  specs : List (String × ℚ)
deriving DecidableEq, Repr

/-- A category pricing benchmark: base price, linear rate per recognized spec
field (for example price per mAh and price per watt for power banks, as in
src/unnamed/part_003 lines 501-510), and brand premium. -/
structure Benchmark where
  base_price : ℚ
  rates : List (String × ℚ)
  brand_premium : ℚ
deriving DecidableEq, Repr

/-- The pricing analysis record produced for a product with a usable price. -/
structure PriceAnalysis where
  listed_price : ℚ
  fair_price_min : ℚ
  fair_price_max : ℚ
  market_average : ℚ
  overpricing_percentage : ℚ
  verdict : PriceVerdict
deriving DecidableEq, Repr

/-- Modelled from the spec: `pricing.py` is not among the sources; the verdict
bands follow specification section 4.2 step 6 (boundaries closed on the lower
bound of each band) and the five percentage bands of QUICK_REFERENCE.md. -/
def getPriceVerdict (p : ℚ) : PriceVerdict :=
  if p < 0 then .excellent_value
  else if p < 10 then .fair
  else if p < 25 then .slightly_overpriced
  else if p < 50 then .overpriced
  else .highly_overpriced

/-- Spec-value part of the fair price: the sum over spec fields the benchmark
prices, each at its linear rate. -/
def specValue (rates : List (String × ℚ)) (specs : List (String × ℚ)) : ℚ :=
  (specs.map (fun s =>
    match rates.find? (fun r => r.1 == s.1) with
    | some r => s.2 * r.2
    | none => 0)).sum

/-- Modelled from the spec: `pricing.py` is not among the sources; the engine
is modelled from specification section 4.2.  A missing or non-positive price
yields the no-analysis sentinel (`none`); otherwise the fair price is base
price plus priced spec value, the fair range is (fair x 0.8, fair x premium),
the market average defaults to the fair price, and the verdict is the band of
the signed overpricing percentage. -/
def analyzePricing (bm : Benchmark) (pd : ProductData) : Option PriceAnalysis :=
  match pd.price with
  | none => none
  | some pr =>
    if pr ≤ 0 then none
    else
      let fair := bm.base_price + specValue bm.rates pd.specs
      let op := (pr - fair) / fair * 100
      some ⟨pr, fair * (4/5), fair * bm.brand_premium, fair, op, getPriceVerdict op⟩

/-- Tier point values used by the reality score: feasible 100, exaggerated 50,
impossible 0. -/
def tierPoints : Status → ℚ
  | .feasible => 100
  | .exaggerated => 50
  | .impossible => 0

/-- Accumulation pass of the reality-score computation: a single left fold
producing (total weighted points, total weight). -/
def realityScoreLoop (vs : List Verification) : ℚ × ℚ :=
  vs.foldl
    (fun acc v => (acc.1 + tierPoints v.status * v.confidence, acc.2 + v.confidence))
    (0, 0)

/-- Modelled from the spec: `scoring.py` is not among the sources; the reality
score is modelled from specification section 4.3: the confidence-weighted
average of tier points, clamped to [0, 100], with the neutral midpoint 50 for
an empty verification list. -/
def calculateRealityScore (vs : List Verification) : ℚ :=
  if vs = [] then 50
  else min 100 (max 0 ((realityScoreLoop vs).1 / (realityScoreLoop vs).2))

/-- Modelled from the spec: fixed mapping from price verdict to pricing score,
using the exact values of specification section 4.3 (100 for the
excellent_value / fair group, 80, 45 and 15 for the three overpriced bands). -/
def pricingScoreOf : PriceVerdict → ℚ
  | .excellent_value => 100
  | .fair => 100
  | .slightly_overpriced => 80
  | .overpriced => 45
  | .highly_overpriced => 15

/-- Whether some verification in the list is impossible. -/
def hasImpossible (vs : List Verification) : Bool :=
  vs.any (fun v => v.status == .impossible)

/-- Whether the optional price analysis carries an overpriced or highly
overpriced verdict (absent analysis counts as no). -/
def priceVerdictBad : Option PriceAnalysis → Bool
  | some pa => pa.verdict == .overpriced || pa.verdict == .highly_overpriced
  | none => false

/-- Whether the optional price analysis carries an excellent_value or fair
verdict (absent analysis counts as no). -/
def priceVerdictGood : Option PriceAnalysis → Bool
  | some pa => pa.verdict == .excellent_value || pa.verdict == .fair
  | none => false

/-- Modelled from the spec: `scoring.py` is not among the sources; the overall
verdict combination policy is modelled from specification section 4.3, first
match wins: impossible verification present, then reality score below 50, then
bad pricing verdict with reality score at least 50, then reality score at
least 80 with good pricing verdict, else acceptable. -/
def determineVerdict (vs : List Verification) (pa : Option PriceAnalysis) : OverallVerdict :=
  if hasImpossible vs then .not_recommended
  else if calculateRealityScore vs < 50 then .misleading_claims
  else if priceVerdictBad pa ∧ 50 ≤ calculateRealityScore vs then .overpriced
  else if 80 ≤ calculateRealityScore vs ∧ priceVerdictGood pa then .good_value
  else .acceptable

/-- Terminal analysis record (the fields the claims concern; the templated
summary, red flags and recommendation texts are outside the scope of the
claims under verification). -/
structure AnalysisResult where
  product_title : String
  claims_found : Nat
  verifications : List Verification
  price_analysis : Option PriceAnalysis
  reality_score : ℚ
  pricing_score : Option ℚ
  overall_verdict : OverallVerdict
deriving DecidableEq, Repr

/-- Modelled from the spec: the linear pipeline of specification section 2:
claims through the feasibility engine, product data through the pricing
engine, both aggregated by the scoring engine; the pricing score is omitted
(not zeroed) when no price analysis exists. -/
def analyzeProduct (bm : Benchmark) (pd : ProductData) (claims : List Claim) : AnalysisResult :=
  let vs := claims.map verifyClaim
  let pa := analyzePricing bm pd
  { product_title := pd.title
    claims_found := claims.length
    verifications := vs
    price_analysis := pa
    reality_score := calculateRealityScore vs
    pricing_score := pa.map (fun p => pricingScoreOf p.verdict)
    overall_verdict := determineVerdict vs pa }

/-- Strictly-worse relation on tiers: feasible to exaggerated, exaggerated to
impossible, feasible to impossible. -/
def strictlyWorse (neu old : Status) : Bool :=
  match old, neu with
  | .feasible, .exaggerated => true
  | .feasible, .impossible => true
  | .exaggerated, .impossible => true
  | _, _ => false

/-- Spec-side characterization: the optional price analysis exists and carries
an overpriced or highly_overpriced verdict. -/
def badPricing (pa : Option PriceAnalysis) : Prop :=
  ∃ p, pa = some p
    ∧ (p.verdict = PriceVerdict.overpriced ∨ p.verdict = PriceVerdict.highly_overpriced)

/-- Spec-side characterization: the optional price analysis exists and carries
an excellent_value or fair verdict. -/
def goodPricing (pa : Option PriceAnalysis) : Prop :=
  ∃ p, pa = some p
    ∧ (p.verdict = PriceVerdict.excellent_value ∨ p.verdict = PriceVerdict.fair)

/-- Display record of the frontend verdict banner
(src/frontend/src/components/ResultCard.jsx, getVerdictInfo). -/
structure VerdictInfo where
  banner : String
  color : String
  icon : String
deriving DecidableEq, Repr

/-- The acceptable entry of the verdict lookup table in ResultCard.jsx. -/
def verdictInfoAcceptable : VerdictInfo :=
  ⟨"⚠️ Acceptable", "bg-yellow-500 text-white", "⚠️"⟩

/-- Display record of the frontend status badge
(src/frontend/src/components/ResultCard.jsx, getStatusBadge). -/
structure StatusBadge where
  badge : String
  color : String
deriving DecidableEq, Repr

/-- The feasible entry of the status badge lookup table in ResultCard.jsx. -/
def statusBadgeFeasible : StatusBadge :=
  ⟨"✅ Feasible", "bg-green-100 text-green-800"⟩

/-- Outcome of a JavaScript object-literal bracket lookup combined with the
logical-or fallback: either a display record (from an own key, or from the
fallback when the lookup was undefined and hence falsy), or a truthy member
inherited from Object.prototype, which bracket lookup finds through the
prototype chain and which the logical-or therefore keeps as-is. -/
inductive LookupResult (α : Type) where
  | record (a : α)
  | inheritedMember (key : String)
deriving DecidableEq, Repr

/-- Property names of Object.prototype, including the Annex B legacy
accessors present in browser engines: bracket lookup on a plain object
literal resolves these through the prototype chain to truthy function or
object values. -/
def objectPrototypeKeys : List String :=
  ["constructor", "hasOwnProperty", "isPrototypeOf", "propertyIsEnumerable",
   "toLocaleString", "toString", "valueOf", "__proto__",
   "__defineGetter__", "__defineSetter__", "__lookupGetter__", "__lookupSetter__"]

/-- Embedding of getVerdictInfo from ResultCard.jsx lines 5-14: the
expression verdicts[verdict] with a logical-or fallback to the acceptable
entry.  Bracket lookup on the five own keys yields the table entries; on an
Object.prototype property name it yields the truthy inherited member, so the
fallback does not apply; on every other string it yields undefined and the
fallback produces the acceptable entry. -/
def getVerdictInfo (verdict : String) : LookupResult VerdictInfo :=
  if verdict = "good_value" then .record ⟨"✅ Good Value", "bg-success text-white", "✅"⟩
  else if verdict = "acceptable" then .record verdictInfoAcceptable
  else if verdict = "overpriced" then .record ⟨"💰 Overpriced", "bg-warning text-white", "💰"⟩
  else if verdict = "misleading_claims" then .record ⟨"⚠️ Misleading Claims", "bg-orange-500 text-white", "⚠️"⟩
  else if verdict = "not_recommended" then .record ⟨"❌ Not Recommended", "bg-danger text-white", "❌"⟩
  else if verdict ∈ objectPrototypeKeys then .inheritedMember verdict
  else .record verdictInfoAcceptable

/-- Embedding of getStatusBadge from ResultCard.jsx lines 16-23: the
expression badges[status] with a logical-or fallback to the feasible badge,
with the same prototype-chain behavior as the verdict lookup. -/
def getStatusBadge (status : String) : LookupResult StatusBadge :=
  if status = "feasible" then .record statusBadgeFeasible
  else if status = "exaggerated" then .record ⟨"⚠️ Exaggerated", "bg-yellow-100 text-yellow-800"⟩
  else if status = "impossible" then .record ⟨"❌ Impossible", "bg-red-100 text-red-800"⟩
  else if status ∈ objectPrototypeKeys then .inheritedMember status
  else .record statusBadgeFeasible

/-- Concrete feasible verification used by the concrete instantiations. -/
def sampleVerification : Verification :=
  ⟨"5000mAh battery", .feasible, 9/10, "Capacity within normal range for portable batteries", none⟩

/-- Concrete power-bank benchmark: base price 10, price per mAh 0.02, price
per watt 0.5, brand premium 1.3 (src/unnamed/part_003 lines 501-510). -/
def powerBankBenchmark : Benchmark :=
  ⟨10, [("battery", 1/50), ("power", 1/2)], 13/10⟩

/-- Concrete product with a positive listed price. -/
def samplePowerBank : ProductData :=
  ⟨"2000mAh Power Bank", "2000mAh compact power bank", some 60, "USD", "power_bank",
    [("battery", 2000)]⟩

/-- Concrete product with no listed price. -/
def noPriceProduct : ProductData :=
  ⟨"Unpriced Power Bank", "power bank with no listed price", none, "USD", "power_bank", []⟩

/-- Concrete claim of a category the engine has no numeric table for. -/
def unknownClaim : Claim :=
  ⟨"superfast top speed", .speed, none, none⟩

theorem realityScoreLoop_aux (vs : List Verification) (a b : ℚ) :
    vs.foldl
        (fun acc v => (acc.1 + tierPoints v.status * v.confidence, acc.2 + v.confidence))
        (a, b)
      = (a + (vs.map (fun v => tierPoints v.status * v.confidence)).sum,
         b + (vs.map (fun v => v.confidence)).sum) := by
  induction vs generalizing a b with
  | nil => simp
  | cons v vs ih => simp [ih, add_assoc]

theorem realityScoreLoop_eq (vs : List Verification) :
    realityScoreLoop vs
      = ((vs.map (fun v => tierPoints v.status * v.confidence)).sum,
         (vs.map (fun v => v.confidence)).sum) := by
  simpa [realityScoreLoop] using realityScoreLoop_aux vs 0 0

theorem calculateRealityScore_nonneg (vs : List Verification) :
    0 ≤ calculateRealityScore vs := by
  unfold calculateRealityScore
  split
  · norm_num
  · exact le_min (by norm_num) (le_max_left 0 _)

theorem calculateRealityScore_le_100 (vs : List Verification) :
    calculateRealityScore vs ≤ 100 := by
  unfold calculateRealityScore
  split
  · norm_num
  · exact min_le_left _ _

theorem tierPoints_le_of_strictlyWorse {s t : Status} (h : strictlyWorse s t = true) :
    tierPoints s ≤ tierPoints t := by
  cases s <;> cases t <;> (simp_all [strictlyWorse, tierPoints]; try norm_num)

/-- Claim C1: for every non-empty list of verifications the reality score is
the confidence-weighted average of the tier point values (feasible 100,
exaggerated 50, impossible 0), clamped to [0, 100]; for the empty list it is
the neutral midpoint 50. -/
theorem c1_reality_score_weighted_average :
    calculateRealityScore [] = 50
    ∧ ∀ vs : List Verification, vs ≠ [] →
        calculateRealityScore vs
          = min 100 (max 0
              ((vs.map (fun v => tierPoints v.status * v.confidence)).sum
                / (vs.map (fun v => v.confidence)).sum)) := by
  refine ⟨rfl, ?_⟩
  intro vs h
  rw [calculateRealityScore, if_neg h, realityScoreLoop_eq]

/-- Witness for C1 at a concrete singleton verification list. -/
theorem c1_reality_score_weighted_average_witness :
    [sampleVerification] ≠ ([] : List Verification)
    ∧ calculateRealityScore [sampleVerification]
        = min 100 (max 0
            (([sampleVerification].map (fun v => tierPoints v.status * v.confidence)).sum
              / ([sampleVerification].map (fun v => v.confidence)).sum)) :=
  ⟨by simp, c1_reality_score_weighted_average.2 [sampleVerification] (by simp)⟩

/-- Claim C9: replacing the tier of one verification by a strictly worse tier
(feasible to exaggerated, exaggerated to impossible, or feasible to
impossible), holding every other verification and every confidence fixed,
never increases the reality score (confidences are nonnegative, as the data
model requires). -/
theorem c9_monotonicity (pre post : List Verification) (v : Verification) (s : Status)
    (hw : strictlyWorse s v.status = true)
    (hc : ∀ u ∈ pre ++ v :: post, 0 ≤ u.confidence) :
    calculateRealityScore (pre ++ { v with status := s } :: post)
      ≤ calculateRealityScore (pre ++ v :: post) := by
  have hne1 : pre ++ { v with status := s } :: post ≠ [] := by simp
  have hne2 : pre ++ v :: post ≠ [] := by simp
  rw [calculateRealityScore, if_neg hne1, realityScoreLoop_eq,
      calculateRealityScore, if_neg hne2, realityScoreLoop_eq]
  have hvc : 0 ≤ v.confidence := hc v (by simp)
  have hstep : tierPoints s * v.confidence ≤ tierPoints v.status * v.confidence :=
    mul_le_mul_of_nonneg_right (tierPoints_le_of_strictlyWorse hw) hvc
  have hden :
      ((pre ++ { v with status := s } :: post).map (fun u => u.confidence)).sum
        = ((pre ++ v :: post).map (fun u => u.confidence)).sum := by
    simp
  have hnum :
      ((pre ++ { v with status := s } :: post).map
          (fun u => tierPoints u.status * u.confidence)).sum
        ≤ ((pre ++ v :: post).map (fun u => tierPoints u.status * u.confidence)).sum := by
    simp only [List.map_append, List.map_cons, List.sum_append, List.sum_cons]
    linarith
  rw [hden]
  have hd0 : 0 ≤ ((pre ++ v :: post).map (fun u => u.confidence)).sum := by
    apply List.sum_nonneg
    intro x hx
    simp only [List.mem_map] at hx
    obtain ⟨u, hu, rfl⟩ := hx
    exact hc u hu
  have hdiv :
      ((pre ++ { v with status := s } :: post).map
          (fun u => tierPoints u.status * u.confidence)).sum
          / ((pre ++ v :: post).map (fun u => u.confidence)).sum
        ≤ ((pre ++ v :: post).map (fun u => tierPoints u.status * u.confidence)).sum
          / ((pre ++ v :: post).map (fun u => u.confidence)).sum := by
    rcases eq_or_lt_of_le hd0 with h0 | h0
    · rw [← h0]
      simp
    · exact (div_le_div_iff_of_pos_right h0).mpr hnum
  exact min_le_min le_rfl (max_le_max le_rfl hdiv)

/-- Witness for C9: worsening the single feasible verification to exaggerated
does not increase the reality score. -/
theorem c9_monotonicity_witness :
    calculateRealityScore ([] ++ { sampleVerification with status := Status.exaggerated } :: [])
      ≤ calculateRealityScore ([] ++ sampleVerification :: []) :=
  c9_monotonicity [] [] sampleVerification .exaggerated rfl
    (by
      intro u hu
      simp only [List.nil_append, List.mem_singleton] at hu
      subst hu
      norm_num [sampleVerification])

theorem hasImpossible_iff (vs : List Verification) :
    hasImpossible vs = true ↔ ∃ v ∈ vs, v.status = Status.impossible := by
  simp [hasImpossible]

theorem priceVerdictBad_iff (pa : Option PriceAnalysis) :
    priceVerdictBad pa = true ↔ badPricing pa := by
  cases pa <;> simp [priceVerdictBad, badPricing]

theorem priceVerdictGood_iff (pa : Option PriceAnalysis) :
    priceVerdictGood pa = true ↔ goodPricing pa := by
  cases pa <;> simp [priceVerdictGood, goodPricing]

/-- Claim C2: the overall verdict follows the strict first-match priority
order: an impossible verification forces not_recommended; otherwise a reality
score below 50 forces misleading_claims; otherwise an overpriced or
highly_overpriced pricing verdict with reality score at least 50 forces
overpriced; otherwise a reality score of at least 80 with an excellent_value
or fair pricing verdict forces good_value; otherwise the verdict is
acceptable. -/
theorem c2_overall_verdict_priority (vs : List Verification) (pa : Option PriceAnalysis) :
    ((∃ v ∈ vs, v.status = Status.impossible) →
        determineVerdict vs pa = OverallVerdict.not_recommended)
    ∧ ((¬ ∃ v ∈ vs, v.status = Status.impossible) →
        calculateRealityScore vs < 50 →
        determineVerdict vs pa = OverallVerdict.misleading_claims)
    ∧ ((¬ ∃ v ∈ vs, v.status = Status.impossible) →
        ¬ calculateRealityScore vs < 50 →
        badPricing pa → 50 ≤ calculateRealityScore vs →
        determineVerdict vs pa = OverallVerdict.overpriced)
    ∧ ((¬ ∃ v ∈ vs, v.status = Status.impossible) →
        ¬ calculateRealityScore vs < 50 →
        ¬ badPricing pa →
        80 ≤ calculateRealityScore vs → goodPricing pa →
        determineVerdict vs pa = OverallVerdict.good_value)
    ∧ ((¬ ∃ v ∈ vs, v.status = Status.impossible) →
        ¬ calculateRealityScore vs < 50 →
        ¬ badPricing pa →
        ¬ (80 ≤ calculateRealityScore vs ∧ goodPricing pa) →
        determineVerdict vs pa = OverallVerdict.acceptable) := by
  refine ⟨?_, ?_, ?_, ?_, ?_⟩
  · intro h
    have hb : hasImpossible vs = true := (hasImpossible_iff vs).mpr h
    simp [determineVerdict, hb]
  · intro h hrs
    have hb : hasImpossible vs = false :=
      Bool.eq_false_iff.mpr (fun hh => h ((hasImpossible_iff vs).mp hh))
    simp [determineVerdict, hb, hrs]
  · intro h hrs hbad hge
    have hb : hasImpossible vs = false :=
      Bool.eq_false_iff.mpr (fun hh => h ((hasImpossible_iff vs).mp hh))
    have hbadb : priceVerdictBad pa = true := (priceVerdictBad_iff pa).mpr hbad
    simp [determineVerdict, hb, hrs, hbadb, hge]
  · intro h hrs hnotbad h80 hgood
    have hb : hasImpossible vs = false :=
      Bool.eq_false_iff.mpr (fun hh => h ((hasImpossible_iff vs).mp hh))
    have hbadb : priceVerdictBad pa = false :=
      Bool.eq_false_iff.mpr (fun hh => hnotbad ((priceVerdictBad_iff pa).mp hh))
    have hgoodb : priceVerdictGood pa = true := (priceVerdictGood_iff pa).mpr hgood
    simp [determineVerdict, hb, hrs, hbadb, h80, hgoodb]
  · intro h hrs hnotbad hnotgv
    have hb : hasImpossible vs = false :=
      Bool.eq_false_iff.mpr (fun hh => h ((hasImpossible_iff vs).mp hh))
    have hbadb : priceVerdictBad pa = false :=
      Bool.eq_false_iff.mpr (fun hh => hnotbad ((priceVerdictBad_iff pa).mp hh))
    have h4 : ¬ (80 ≤ calculateRealityScore vs ∧ priceVerdictGood pa = true) :=
      fun hh => hnotgv ⟨hh.1, (priceVerdictGood_iff pa).mp hh.2⟩
    simp [determineVerdict, hb, hrs, hbadb, h4]

/-- Witness for C2: one feasible verification and no price analysis fall
through every earlier rule and land on acceptable. -/
theorem c2_overall_verdict_priority_witness :
    determineVerdict [sampleVerification] none = OverallVerdict.acceptable :=
  (c2_overall_verdict_priority [sampleVerification] none).2.2.2.2
    (by
      rintro ⟨v, hv, hst⟩
      simp only [List.mem_singleton] at hv
      subst hv
      exact absurd hst (by decide))
    (by norm_num [calculateRealityScore, realityScoreLoop, sampleVerification, tierPoints])
    (by rintro ⟨p, hp, -⟩; cases hp)
    (by rintro ⟨-, p, hp, -⟩; cases hp)

/-- Claim C3: for every product with a positive listed price the pricing
verdict is a function of the signed overpricing percentage alone, with the
bands closed on their lower bounds: below 0 excellent_value, 0 to 10 fair,
10 to 25 slightly_overpriced, 25 to 50 overpriced, 50 and above
highly_overpriced. -/
theorem c3_pricing_verdict_bands (bm : Benchmark) (pd : ProductData) (pr : ℚ)
    (hp : pd.price = some pr) (hpos : 0 < pr) :
    (∃ pa, analyzePricing bm pd = some pa
        ∧ pa.verdict = getPriceVerdict pa.overpricing_percentage)
    ∧ ∀ q : ℚ,
        (q < 0 → getPriceVerdict q = PriceVerdict.excellent_value)
        ∧ (0 ≤ q → q < 10 → getPriceVerdict q = PriceVerdict.fair)
        ∧ (10 ≤ q → q < 25 → getPriceVerdict q = PriceVerdict.slightly_overpriced)
        ∧ (25 ≤ q → q < 50 → getPriceVerdict q = PriceVerdict.overpriced)
        ∧ (50 ≤ q → getPriceVerdict q = PriceVerdict.highly_overpriced) := by
  constructor
  · simp only [analyzePricing, hp, if_neg (not_le.mpr hpos)]
    exact ⟨_, rfl, rfl⟩
  · intro q
    refine ⟨?_, ?_, ?_, ?_, ?_⟩ <;>
      · intros
        simp only [getPriceVerdict]
        split_ifs <;> first | rfl | linarith

/-- Witness for C3 at a concrete power-bank product listed at 60 against a
fair price of 50 (overpricing 20 percent, slightly overpriced). -/
theorem c3_pricing_verdict_bands_witness :
    (∃ pa, analyzePricing powerBankBenchmark samplePowerBank = some pa
        ∧ pa.verdict = getPriceVerdict pa.overpricing_percentage)
    ∧ getPriceVerdict 20 = PriceVerdict.slightly_overpriced :=
  ⟨(c3_pricing_verdict_bands powerBankBenchmark samplePowerBank 60 rfl (by norm_num)).1,
   ((c3_pricing_verdict_bands powerBankBenchmark samplePowerBank 60 rfl
        (by norm_num)).2 20).2.2.1 (by norm_num) (by norm_num)⟩

/-- Claim C4 counterexample: a battery_capacity claim of exactly 100000 mAh is
not classified impossible (the impossible rule of the table is strict, so the
boundary value falls to the exaggerated tier). -/
theorem c4_boundary_counterexample :
    ¬ (verifyBatteryCapacity "100000 mAh battery" 100000).status = Status.impossible := by
  decide

/-- Claim C4 amended: boundary values follow the literal comparison operators
of the rule tables: exactly 100000 mAh is classified exaggerated (not
impossible), and exactly 15 minutes of charging is classified feasible. -/
theorem c4_boundary_policy_amended :
    (verifyBatteryCapacity "100000 mAh battery" 100000).status = Status.exaggerated
    ∧ (verifyChargingTime "charges in 15 minutes" 15).status = Status.feasible := by
  decide

/-- Claim C5 counterexample: an efficiency claim of exactly 98 percent is not
classified impossible (the impossible rule of the table is strict above 98, so
98 itself falls to the exaggerated tier). -/
theorem c5_efficiency_counterexample :
    ¬ (verifyEfficiency "98 percent efficiency" 98).status = Status.impossible := by
  decide

/-- Claim C5 amended: efficiency at or above 100 is impossible, efficiency
strictly above 98 is impossible, efficiency in (95, 98] is exaggerated (so
exactly 98.0 is exaggerated and 98.01 is impossible), 70 to 95 is feasible,
below 70 is exaggerated; efficiency 100 carries confidence 1.0; every
efficiency value receives one of the three tiers. -/
theorem c5_efficiency_rules_amended (t : String) (v : ℚ) :
    (100 ≤ v → (verifyEfficiency t v).status = Status.impossible)
    ∧ (98 < v → (verifyEfficiency t v).status = Status.impossible)
    ∧ (95 < v → v ≤ 98 → (verifyEfficiency t v).status = Status.exaggerated)
    ∧ (70 ≤ v → v ≤ 95 → (verifyEfficiency t v).status = Status.feasible)
    ∧ (v < 70 → (verifyEfficiency t v).status = Status.exaggerated)
    ∧ (verifyEfficiency t 98).status = Status.exaggerated
    ∧ (verifyEfficiency t (9801/100)).status = Status.impossible
    ∧ (verifyEfficiency t 100).confidence = 1
    ∧ ((verifyEfficiency t v).status = Status.feasible
        ∨ (verifyEfficiency t v).status = Status.exaggerated
        ∨ (verifyEfficiency t v).status = Status.impossible) := by
  refine ⟨?_, ?_, ?_, ?_, ?_, ?_, ?_, ?_, ?_⟩ <;>
    · intros
      simp only [verifyEfficiency]
      split_ifs <;> first | rfl | linarith | simp

/-- Witness for C5 amended at efficiency exactly 98: exaggerated. -/
theorem c5_efficiency_rules_amended_witness :
    (verifyEfficiency "peak efficiency figure" 98).status = Status.exaggerated :=
  (c5_efficiency_rules_amended "peak efficiency figure" 98).2.2.1
    (by norm_num) (by norm_num)

/-- Claim C6: a charging-time claim below 5 minutes is impossible, from 5 up
to (but excluding) 15 minutes is exaggerated, and at 15 minutes or more is
feasible; in particular 14.99 minutes is exaggerated and exactly 15 minutes is
feasible. -/
theorem c6_charging_time_rules (t : String) (v : ℚ) :
    (v < 5 → (verifyChargingTime t v).status = Status.impossible)
    ∧ (5 ≤ v → v < 15 → (verifyChargingTime t v).status = Status.exaggerated)
    ∧ (15 ≤ v → (verifyChargingTime t v).status = Status.feasible)
    ∧ (verifyChargingTime t (1499/100)).status = Status.exaggerated
    ∧ (verifyChargingTime t 15).status = Status.feasible := by
  refine ⟨?_, ?_, ?_, ?_, ?_⟩ <;>
    · intros
      simp only [verifyChargingTime]
      split_ifs <;> first | rfl | linarith

/-- Witness for C6 at exactly 15 minutes: feasible. -/
theorem c6_charging_time_rules_witness :
    (verifyChargingTime "full charge in 15 minutes" 15).status = Status.feasible :=
  (c6_charging_time_rules "full charge in 15 minutes" 15).2.2.1 (by norm_num)

/-- Claim C7: a missing or non-positive price makes the pricing engine return
the no-analysis sentinel, the resulting analysis omits the pricing score
(absent, not zero), and the reality score is the same as for any other product
record over the same claims. -/
theorem c7_missing_price (bm : Benchmark) (pd : ProductData) (claims : List Claim)
    (h : pd.price = none ∨ ∃ p, pd.price = some p ∧ p ≤ 0) :
    analyzePricing bm pd = none
    ∧ (analyzeProduct bm pd claims).pricing_score = none
    ∧ (analyzeProduct bm pd claims).price_analysis = none
    ∧ ∀ pd2 : ProductData,
        (analyzeProduct bm pd2 claims).reality_score
          = (analyzeProduct bm pd claims).reality_score := by
  have hn : analyzePricing bm pd = none := by
    rcases h with h | ⟨p, hp, hple⟩
    · simp [analyzePricing, h]
    · simp [analyzePricing, hp, hple]
  refine ⟨hn, ?_, ?_, ?_⟩
  · simp [analyzeProduct, hn]
  · simp [analyzeProduct, hn]
  · intro pd2
    rfl

/-- Witness for C7 at a concrete unpriced product, compared against the same
claims with a positive price present. -/
theorem c7_missing_price_witness :
    analyzePricing powerBankBenchmark noPriceProduct = none
    ∧ (analyzeProduct powerBankBenchmark noPriceProduct [unknownClaim]).pricing_score = none
    ∧ (analyzeProduct powerBankBenchmark samplePowerBank [unknownClaim]).reality_score
        = (analyzeProduct powerBankBenchmark noPriceProduct [unknownClaim]).reality_score :=
  ⟨(c7_missing_price powerBankBenchmark noPriceProduct [unknownClaim] (Or.inl rfl)).1,
   (c7_missing_price powerBankBenchmark noPriceProduct [unknownClaim] (Or.inl rfl)).2.1,
   (c7_missing_price powerBankBenchmark noPriceProduct [unknownClaim]
      (Or.inl rfl)).2.2.2 samplePowerBank⟩

theorem verifyClaim_confidence_bounds (c : Claim) :
    0 ≤ (verifyClaim c).confidence ∧ (verifyClaim c).confidence ≤ 1 := by
  obtain ⟨t, cat, val, u⟩ := c
  cases cat <;> cases val <;>
    simp only [verifyClaim, verifyBatteryCapacity, verifyChargingTime,
      verifyPowerOutput, verifyEfficiency, verifySpeed, verifyRangeKm,
      verifyWeight, verifyStorage, verifyTypicalRange] <;>
    (try split_ifs) <;> constructor <;> norm_num

theorem pricingScoreOf_bounds (pv : PriceVerdict) :
    0 ≤ pricingScoreOf pv ∧ pricingScoreOf pv ≤ 100 := by
  cases pv <;> constructor <;> norm_num [pricingScoreOf]

/-- Claim C8: the pipeline yields exactly one verification per input claim;
every verification has confidence in [0, 1] and one of the three statuses;
the reality score and any present pricing score lie in [0, 100]; a claim the
engine cannot classify still yields a verification with the default
exaggerated tier and confidence 0.5. -/
theorem c8_pipeline_invariants (bm : Benchmark) (pd : ProductData) (claims : List Claim) :
    (analyzeProduct bm pd claims).verifications.length = claims.length
    ∧ (∀ v ∈ (analyzeProduct bm pd claims).verifications,
        (0 ≤ v.confidence ∧ v.confidence ≤ 1)
        ∧ (v.status = Status.feasible ∨ v.status = Status.exaggerated
            ∨ v.status = Status.impossible))
    ∧ (0 ≤ (analyzeProduct bm pd claims).reality_score
        ∧ (analyzeProduct bm pd claims).reality_score ≤ 100)
    ∧ (∀ sc, (analyzeProduct bm pd claims).pricing_score = some sc →
        0 ≤ sc ∧ sc ≤ 100)
    ∧ (∀ c : Claim, c.value = none →
        c.category ≠ Category.marketing_buzzword →
        c.category ≠ Category.comparative →
        (verifyClaim c).status = Status.exaggerated
          ∧ (verifyClaim c).confidence = 1/2) := by
  refine ⟨?_, ?_, ?_, ?_, ?_⟩
  · simp [analyzeProduct]
  · intro v hv
    have hv2 : v ∈ claims.map verifyClaim := hv
    rw [List.mem_map] at hv2
    obtain ⟨c, -, rfl⟩ := hv2
    refine ⟨verifyClaim_confidence_bounds c, ?_⟩
    cases (verifyClaim c).status <;> simp
  · exact ⟨calculateRealityScore_nonneg _, calculateRealityScore_le_100 _⟩
  · intro sc hsc
    have hsc2 : (analyzePricing bm pd).map (fun p => pricingScoreOf p.verdict) = some sc := hsc
    cases hpa : analyzePricing bm pd with
    | none => rw [hpa] at hsc2; cases hsc2
    | some p =>
      rw [hpa] at hsc2
      simp at hsc2
      rw [← hsc2]
      exact pricingScoreOf_bounds p.verdict
  · intro c hval hb hcmp
    obtain ⟨t, cat, val, u⟩ := c
    simp only at hval hb hcmp
    subst hval
    cases cat <;>
      first
      | exact absurd rfl hb
      | exact absurd rfl hcmp
      | exact ⟨rfl, rfl⟩

/-- Witness for C8: the unclassifiable speed claim with no numeric value
yields the default exaggerated verification with confidence 0.5. -/
theorem c8_pipeline_invariants_witness :
    (verifyClaim unknownClaim).status = Status.exaggerated
    ∧ (verifyClaim unknownClaim).confidence = 1/2 :=
  (c8_pipeline_invariants powerBankBenchmark noPriceProduct []).2.2.2.2
    unknownClaim rfl (by decide) (by decide)

/-- Claim C10 counterexample: the verdict string "toString" is outside the
five known verdict keys, yet the component does not render it with the
acceptable entry: bracket lookup finds the truthy Object.prototype member, so
the logical-or fallback never applies. -/
theorem c10_resultcard_counterexample :
    ¬ getVerdictInfo "toString" = LookupResult.record verdictInfoAcceptable := by
  decide

/-- Claim C10 amended: the ResultCard component renders an unknown overall
verdict string with the acceptable entry, and an unknown status string with
the feasible badge, exactly when the string is also not a property name
inherited from Object.prototype; for an inherited property name the bracket
lookup returns the truthy inherited member and the fallback does not apply. -/
theorem c10_resultcard_fallback (s t : String)
    (hs : s ∉ ["good_value", "acceptable", "overpriced", "misleading_claims",
      "not_recommended"])
    (hsp : s ∉ objectPrototypeKeys)
    (ht : t ∉ ["feasible", "exaggerated", "impossible"])
    (htp : t ∉ objectPrototypeKeys) :
    getVerdictInfo s = LookupResult.record verdictInfoAcceptable
    ∧ getStatusBadge t = LookupResult.record statusBadgeFeasible
    ∧ ∀ k ∈ objectPrototypeKeys,
        getVerdictInfo k = LookupResult.inheritedMember k
        ∧ getStatusBadge k = LookupResult.inheritedMember k := by
  simp only [List.mem_cons, List.not_mem_nil, or_false, not_or] at hs ht
  obtain ⟨h1, h2, h3, h4, h5⟩ := hs
  obtain ⟨g1, g2, g3⟩ := ht
  refine ⟨?_, ?_, ?_⟩
  · simp [getVerdictInfo, h1, h2, h3, h4, h5, hsp]
  · simp [getStatusBadge, g1, g2, g3, htp]
  · intro k hk
    fin_cases hk <;> exact ⟨by decide, by decide⟩

/-- Witness for C10 at concrete unknown verdict and status strings that are
not Object.prototype property names. -/
theorem c10_resultcard_fallback_witness :
    getVerdictInfo "weird_verdict" = LookupResult.record verdictInfoAcceptable
    ∧ getStatusBadge "unknown" = LookupResult.record statusBadgeFeasible :=
  ⟨(c10_resultcard_fallback "weird_verdict" "unknown"
      (by decide) (by decide) (by decide) (by decide)).1,
   (c10_resultcard_fallback "weird_verdict" "unknown"
      (by decide) (by decide) (by decide) (by decide)).2.1⟩

end TruthLens
